import Mathlib

/-!
Verification of the Dremio query-profile analyzer (`analyze_profile.py` and
`detailed_profile_analysis.py`).

The profile document is modelled as a nested record whose fields are
`Option`-valued: an absent JSON field is `none`, and every `.get(key, default)`
in the Python source becomes `Option.getD`.  JSON integers are modelled as
`Int` (Python integers are unbounded) and JSON floating-point values as `ℚ`.
Python's stable `sorted(..., reverse=True)` is modelled as an insertion sort
with the non-strict descending relation, which is the stable descending sort.
-/

namespace ProfileAnalyzer

/-- One entry of an operator's `inputProfile` array. -/
structure InputProfileRec where
  records : Option Int := none
  size : Option Int := none
deriving DecidableEq, Repr

/-- One entry of an operator's `metric` array.  A field is `none` when the
corresponding JSON key is absent (the Python code tests membership with
`"longValue" in metric`). -/
structure MetricEntry where
  metricId : Option Int := none
  longValue : Option Int := none
  doubleValue : Option ℚ := none
deriving DecidableEq, Repr

/-- One operator record inside a minor fragment.  `totalNanos` is a field a
profile document may carry but which neither analyzer ever reads; it is kept
in the model so that "the total is recomputed, never trusted from input" is a
statement with content. -/
structure OperatorProfileRec where
  operatorId : Option Int := none
  operatorType : Option Int := none
  setupNanos : Option Int := none
  processNanos : Option Int := none
  waitNanos : Option Int := none
  totalNanos : Option Int := none
  inputProfile : Option (List InputProfileRec) := none
  outputRecords : Option Int := none
  outputBytes : Option Int := none
  peakLocalMemoryAllocated : Option Int := none
  metric : Option (List MetricEntry) := none
deriving DecidableEq, Repr

/-- One minor-fragment record. -/
structure MinorFragmentRec where
  minorFragmentId : Option Int := none
  operatorProfile : Option (List OperatorProfileRec) := none
deriving DecidableEq, Repr

/-- One major-fragment record of the `fragmentProfile` array. -/
structure FragmentRec where
  majorFragmentId : Option Int := none
  minorFragmentProfile : Option (List MinorFragmentRec) := none
deriving DecidableEq, Repr

/-- One entry of the `planPhases` array. -/
structure PlanPhaseRec where
  phaseName : Option String := none
  durationMillis : Option Int := none
deriving DecidableEq, Repr

/-- The parts of a decoded profile document that the two analyzers consume. -/
structure ProfileDocument where
  fragmentProfile : Option (List FragmentRec) := none
  planPhases : Option (List PlanPhaseRec) := none
deriving DecidableEq, Repr

/-- `OperatorTiming` dataclass of `analyze_profile.py`. -/
structure OperatorTiming where
  operator_id : Int
  operator_type : Int
  operator_name : String
  setup_nanos : Int
  process_nanos : Int
  wait_nanos : Int
  total_nanos : Int
  fragment_id : Int
  minor_fragment_id : Int
deriving DecidableEq, Repr

/-- `PhaseTiming` dataclass of `analyze_profile.py`. -/
structure PhaseTiming where
  phase_name : String
  duration_millis : Int
deriving DecidableEq, Repr

/-- The value stored for one custom metric: Python keeps whichever of the raw
`longValue` (an int) or `doubleValue` (a float) it selected. -/
inductive MetricValue where
  | longVal (v : Int)
  | doubleVal (v : ℚ)
deriving DecidableEq, Repr

/-- `DetailedOperatorMetrics` dataclass of `detailed_profile_analysis.py`.
The `metrics` dict is modelled as an insertion-ordered association list, the
representation of a Python dict. -/
structure DetailedOperatorMetrics where
  operator_id : Int
  operator_type : Int
  operator_name : String
  setup_nanos : Int
  process_nanos : Int
  wait_nanos : Int
  total_nanos : Int
  fragment_id : Int
  minor_fragment_id : Int
  input_records : Int
  output_records : Int
  input_bytes : Int
  output_bytes : Int
  peak_memory : Int
  metrics : List (String × MetricValue)
deriving DecidableEq, Repr

/-- The `operator_types` dict literal shared verbatim by both scripts
(lines 42-112 of each). -/
def operator_types : List (Int × String) :=
  [(0, "SingleSender"),
   (1, "BroadcastSender"),
   (2, "Filter"),
   (3, "HashAggregate"),
   (4, "HashJoin"),
   (5, "MergeJoin"),
   (6, "HashPartitionSender"),
   (7, "Limit"),
   (8, "MergingReceiver"),
   (9, "OrderedPartitionSender"),
   (10, "Project"),
   (11, "UnorderedReceiver"),
   (12, "RangeSender"),
   (13, "Screen"),
   (14, "SelectionVectorRemover"),
   (15, "StreamingAggregate"),
   (16, "TopNSort"),
   (17, "ExternalSort"),
   (18, "Trace"),
   (19, "Union"),
   (20, "OldSort"),
   (21, "ParquetRowGroupScan"),
   (22, "HiveSubScan"),
   (23, "SystemTableScan"),
   (24, "MockSubScan"),
   (25, "ParquetWriter"),
   (26, "DirectSubScan"),
   (27, "TextWriter"),
   (28, "TextSubScan"),
   (29, "JsonSubScan"),
   (30, "InfoSchemaSubScan"),
   (31, "ComplexToJson"),
   (32, "ProducerConsumer"),
   (33, "HbaseSubScan"),
   (34, "Window"),
   (35, "NestedLoopJoin"),
   (36, "AvroSubScan"),
   (37, "MongoSubScan"),
   (38, "ElasticsearchSubScan"),
   (39, "ElasticsearchAggregatorSubScan"),
   (40, "Flatten"),
   (41, "ExcelSubScan"),
   (42, "ArrowSubScan"),
   (43, "ArrowWriter"),
   (44, "JsonWriter"),
   (45, "ValuesReader"),
   (46, "ConvertFromJson"),
   (47, "JdbcSubScan"),
   (48, "DictionaryLookup"),
   (49, "WriterCommitter"),
   (50, "RoundRobinSender"),
   (51, "BoostParquet"),
   (52, "IcebergSubScan"),
   (53, "TableFunction"),
   (54, "DeltalakeSubScan"),
   (55, "DirListingSubScan"),
   (56, "IcebergWriterCommitter"),
   (57, "GrpcWriter"),
   (58, "ManifestWriter"),
   (59, "FlightSubScan"),
   (60, "BridgeFileWriterSender"),
   (61, "BridgeFileReaderReceiver"),
   (62, "BridgeFileReader"),
   (63, "IcebergManifestWriter"),
   (64, "IcebergMetadataFunctionsReader"),
   (65, "IcebergSnapshotsSubScan"),
   (66, "NessieCommitsSubScan"),
   (67, "SmallFileCombinationWriter"),
   (68, "ArrowWriterAuxiliary")]

/-- `get_operator_type_name` (identical in both scripts):
`operator_types.get(operator_type, f"Unknown(...)")`. -/
def get_operator_type_name (operator_type : Int) : String :=
  (operator_types.lookup operator_type).getD
    ("Unknown(" ++ toString operator_type ++ ")")

/-- `analyze_operators` of `analyze_profile.py` (lines 115-151): walk
fragment, minor fragment and operator arrays in document order and build one
`OperatorTiming` per operator record. -/
def analyze_operators (profile_data : ProfileDocument) : List OperatorTiming :=
  (profile_data.fragmentProfile.getD []).flatMap fun fragment =>
    (fragment.minorFragmentProfile.getD []).flatMap fun minor_fragment =>
      (minor_fragment.operatorProfile.getD []).map fun op =>
        let setup_nanos := op.setupNanos.getD 0
        let process_nanos := op.processNanos.getD 0
        let wait_nanos := op.waitNanos.getD 0
        { operator_id := op.operatorId.getD 0
          operator_type := op.operatorType.getD 0
          operator_name := get_operator_type_name (op.operatorType.getD 0)
          setup_nanos := setup_nanos
          process_nanos := process_nanos
          wait_nanos := wait_nanos
          total_nanos := setup_nanos + process_nanos + wait_nanos
          fragment_id := fragment.majorFragmentId.getD 0
          minor_fragment_id := minor_fragment.minorFragmentId.getD 0 }

/-- `analyze_phases` of `analyze_profile.py` (lines 153-168). -/
def analyze_phases (profile_data : ProfileDocument) : List PhaseTiming :=
  (profile_data.planPhases.getD []).map fun phase =>
    { phase_name := phase.phaseName.getD "Unknown"
      duration_millis := phase.durationMillis.getD 0 }

/-- Insert into a Python dict modelled as an association list: an existing
key keeps its position and gets the new value, a new key is appended. -/
def dictInsert (k : String) (v : MetricValue) :
    List (String × MetricValue) → List (String × MetricValue)
  | [] => [(k, v)]
  | (k', v') :: rest =>
      if k' = k then (k', v) :: rest else (k', v') :: dictInsert k v rest

/-- The `metrics` dict built by the inner loop of `extract_detailed_metrics`
(lines 146-152): `longValue` is checked first, `doubleValue` only in the
`elif`, and entries with neither key are skipped. -/
def build_metrics (entries : List MetricEntry) : List (String × MetricValue) :=
  entries.foldl
    (fun metrics metric =>
      let metric_id := metric.metricId.getD 0
      match metric.longValue with
      | some v => dictInsert ("metric_" ++ toString metric_id) (.longVal v) metrics
      | none =>
          match metric.doubleValue with
          | some v => dictInsert ("metric_" ++ toString metric_id) (.doubleVal v) metrics
          | none => metrics)
    []

/-- `extract_detailed_metrics` of `detailed_profile_analysis.py`
(lines 115-175). -/
def extract_detailed_metrics (profile_data : ProfileDocument) :
    List DetailedOperatorMetrics :=
  (profile_data.fragmentProfile.getD []).flatMap fun fragment =>
    (fragment.minorFragmentProfile.getD []).flatMap fun minor_fragment =>
      (minor_fragment.operatorProfile.getD []).map fun op =>
        let setup_nanos := op.setupNanos.getD 0
        let process_nanos := op.processNanos.getD 0
        let wait_nanos := op.waitNanos.getD 0
        let input_profiles := op.inputProfile.getD []
        { operator_id := op.operatorId.getD 0
          operator_type := op.operatorType.getD 0
          operator_name := get_operator_type_name (op.operatorType.getD 0)
          setup_nanos := setup_nanos
          process_nanos := process_nanos
          wait_nanos := wait_nanos
          total_nanos := setup_nanos + process_nanos + wait_nanos
          fragment_id := fragment.majorFragmentId.getD 0
          minor_fragment_id := minor_fragment.minorFragmentId.getD 0
          input_records := (input_profiles.map fun ip => ip.records.getD 0).sum
          output_records := op.outputRecords.getD 0
          input_bytes := (input_profiles.map fun ip => ip.size.getD 0).sum
          output_bytes := op.outputBytes.getD 0
          peak_memory := op.peakLocalMemoryAllocated.getD 0
          metrics := build_metrics (op.metric.getD []) }

/-- The non-strict descending order on an integer key: the sort order used by
Python's stable `sorted(xs, key=..., reverse=True)`. -/
def keyDesc {α : Type} (key : α → Int) (a b : α) : Prop :=
  key b ≤ key a

instance {α : Type} (key : α → Int) : DecidableRel (keyDesc key) :=
  fun _ _ => Int.decLe _ _

instance {α : Type} (key : α → Int) : IsTotal α (keyDesc key) :=
  ⟨fun a b => Int.le_total (key b) (key a)⟩

instance {α : Type} (key : α → Int) : IsTrans α (keyDesc key) :=
  ⟨fun _ _ _ h1 h2 => le_trans h2 h1⟩

/-- Python's `sorted(xs, key=key, reverse=True)`: the stable sort that puts
larger keys first and keeps tied elements in input order.  Insertion sort
with the non-strict descending relation is exactly that function. -/
def py_sorted_desc {α : Type} (key : α → Int) (l : List α) : List α :=
  l.insertionSort (keyDesc key)

/-- Python's `max(xs, key=key)` on a possibly-empty list: scan left to right
keeping the current best, replacing it only on a strictly larger key, so the
first maximal element wins; `none` on the empty list (the scripts only call
`max` under an `if xs:` guard). -/
def py_max {α : Type} (key : α → Int) : List α → Option α
  | [] => none
  | x :: xs => some (xs.foldl (fun best y => if key best < key y then y else best) x)

/-- `sorted(operators, key=lambda x: x.total_nanos, reverse=True)`
(`analyze_profile.py` line 194). -/
def rank_operators (operators : List OperatorTiming) : List OperatorTiming :=
  py_sorted_desc (fun x => x.total_nanos) operators

/-- `sorted(phases, key=lambda x: x.duration_millis, reverse=True)`
(`analyze_profile.py` line 210). -/
def rank_phases (phases : List PhaseTiming) : List PhaseTiming :=
  py_sorted_desc (fun x => x.duration_millis) phases

/-- `sorted(operators, key=lambda x: x.total_nanos, reverse=True)`
(`detailed_profile_analysis.py` line 258). -/
def rank_detailed (operators : List DetailedOperatorMetrics) :
    List DetailedOperatorMetrics :=
  py_sorted_desc (fun x => x.total_nanos) operators

/-- `max(operators, key=lambda x: x.total_nanos)` guarded by `if operators:`
(`analyze_profile.py` lines 301-302); `none` when the guard fails. -/
def longest_operator (operators : List OperatorTiming) : Option OperatorTiming :=
  py_max (fun x => x.total_nanos) operators

/-- `max(phases, key=lambda x: x.duration_millis)` guarded by `if phases:`
(`analyze_profile.py` lines 308-309). -/
def longest_phase (phases : List PhaseTiming) : Option PhaseTiming :=
  py_max (fun x => x.duration_millis) phases

/-- High-wait filter of `analyze_bottlenecks`
(`detailed_profile_analysis.py` line 216). -/
def high_wait_ops (operators : List DetailedOperatorMetrics) :
    List DetailedOperatorMetrics :=
  operators.filter fun op =>
    op.process_nanos < op.wait_nanos && 1000000 < op.wait_nanos

/-- High-memory filter of `analyze_bottlenecks` (line 224). -/
def high_memory_ops (operators : List DetailedOperatorMetrics) :
    List DetailedOperatorMetrics :=
  operators.filter fun op => 1000000 < op.peak_memory

/-- High-record-volume filter of `analyze_bottlenecks` (line 231). -/
def high_record_ops (operators : List DetailedOperatorMetrics) :
    List DetailedOperatorMetrics :=
  operators.filter fun op => 1000000 < op.input_records

/-- The throughput expression of `analyze_bottlenecks` (line 235):
`op.input_records / (op.process_nanos / 1_000_000_000) if op.process_nanos > 0
else 0`, with Python float division modelled as exact division in `ℚ`. -/
def throughput (op : DetailedOperatorMetrics) : ℚ :=
  if 0 < op.process_nanos then
    (op.input_records : ℚ) / ((op.process_nanos : ℚ) / 1000000000)
  else 0

/-- The processing-rate computation of `print_detailed_operator_breakdown`
(lines 277-279), which only happens under the guard
`op.input_records > 0 and op.process_nanos > 0`; `none` when not computed. -/
def processing_rate (op : DetailedOperatorMetrics) : Option ℚ :=
  if 0 < op.input_records ∧ 0 < op.process_nanos then
    some ((op.input_records : ℚ) / ((op.process_nanos : ℚ) / 1000000000))
  else none

/-- The low-selectivity accumulation loop of `analyze_bottlenecks`
(lines 240-245): for each operator, if `input_records > 1000 and
output_records > 0`, compute `selectivity = output_records / input_records`
and append `(op, selectivity)` when `selectivity < 0.01`. -/
def poor_selectivity_ops (operators : List DetailedOperatorMetrics) :
    List (DetailedOperatorMetrics × ℚ) :=
  operators.foldl
    (fun acc op =>
      if 1000 < op.input_records ∧ 0 < op.output_records then
        let selectivity := (op.output_records : ℚ) / (op.input_records : ℚ)
        if selectivity < 1 / 100 then acc ++ [(op, selectivity)] else acc
      else acc)
    []

/-- The analysis data `detailed_profile_analysis.py` derives from one profile
document: the extracted metrics, the ranked sequence, the four bottleneck
rule outputs and the overall statistics of `analyze_detailed_profile`
(lines 353-366). -/
structure DetailedReport where
  metrics : List DetailedOperatorMetrics
  ranked : List DetailedOperatorMetrics
  highWait : List DetailedOperatorMetrics
  highMemory : List DetailedOperatorMetrics
  highVolume : List DetailedOperatorMetrics
  lowSelectivity : List (DetailedOperatorMetrics × ℚ)
  total_operators : Nat
  total_time : Int
  total_memory : Int
  total_records : Int
deriving DecidableEq, Repr

/-- The full detailed-analysis pipeline on an already-decoded document:
extraction followed by ranking, bottleneck classification and summary
statistics, exactly the calls `analyze_detailed_profile` makes. -/
def run_detailed_analysis (profile_data : ProfileDocument) : DetailedReport :=
  let operators := extract_detailed_metrics profile_data
  { metrics := operators
    ranked := rank_detailed operators
    highWait := high_wait_ops operators
    highMemory := high_memory_ops operators
    highVolume := high_record_ops operators
    lowSelectivity := poor_selectivity_ops operators
    total_operators := operators.length
    total_time := (operators.map fun op => op.total_nanos).sum
    total_memory := (operators.map fun op => op.peak_memory).sum
    total_records := (operators.map fun op => op.input_records).sum }

/-! ### Helper lemmas about the stable descending sort and the running max -/

/-- The head of an ordered insertion: the inserted element when its key is at
least the old head's key (ties go to the inserted, i.e. earlier, element),
the old head otherwise. -/
lemma head?_orderedInsert {α : Type} (key : α → Int) (x : α) (l : List α) :
    (List.orderedInsert (keyDesc key) x l).head? =
      some (match l.head? with
            | none => x
            | some z => if key z ≤ key x then x else z) := by
  cases l with
  | nil => rfl
  | cons z zs =>
    by_cases h : keyDesc key x z
    · rw [List.orderedInsert, if_pos h]
      simp only [keyDesc] at h
      simp [h]
    · rw [List.orderedInsert, if_neg h]
      simp only [keyDesc] at h
      simp [h]

/-- Folding Python's max step over a list computes the first-seen maximum of
the list, compared against the starting accumulator. -/
lemma foldl_py_max_step {α : Type} (key : α → Int) :
    ∀ (xs : List α) (b : α),
      xs.foldl (fun best y => if key best < key y then y else best) b =
        (match py_max key xs with
         | none => b
         | some m => if key b < key m then m else b) := by
  intro xs
  induction xs with
  | nil => intro b; rfl
  | cons y ys ih =>
    intro b
    show (ys.foldl (fun best y => if key best < key y then y else best)
            (if key b < key y then y else b)) =
      (match some (ys.foldl (fun best y => if key best < key y then y else best) y) with
       | none => b
       | some m => if key b < key m then m else b)
    rw [ih (if key b < key y then y else b), ih y]
    cases h : py_max key ys with
    | none => simp only
    | some m =>
      simp only
      split_ifs <;> first | rfl | omega


/-- Python's `max(l, key=key)` agrees with the head of the stable descending
sort of `l`: both pick the first-seen element of maximal key. -/
lemma py_max_eq_head?_py_sorted_desc {α : Type} (key : α → Int) (l : List α) :
    py_max key l = (py_sorted_desc key l).head? := by
  induction l with
  | nil => rfl
  | cons x xs ih =>
    show some (xs.foldl (fun best y => if key best < key y then y else best) x) =
      (List.orderedInsert (keyDesc key) x (py_sorted_desc key xs)).head?
    rw [head?_orderedInsert, foldl_py_max_step, ih]
    cases h : (py_sorted_desc key xs).head? with
    | none => simp only
    | some m =>
      simp only
      split_ifs <;> first | rfl | omega

/-- Inserting `x` commutes with filtering on an exact key value: when `x` has
the key it lands in front of every tied element, otherwise the filtered list
is untouched. -/
lemma filter_key_orderedInsert {α : Type} (key : α → Int) (k : Int) (x : α)
    (l : List α) :
    (List.orderedInsert (keyDesc key) x l).filter (fun y => key y == k) =
      if key x == k then x :: l.filter (fun y => key y == k)
      else l.filter (fun y => key y == k) := by
  induction l with
  | nil =>
    by_cases hx : key x = k <;>
      simp [List.orderedInsert, List.filter_cons, hx]
  | cons z zs ih =>
    by_cases hxz : keyDesc key x z
    · simp [List.orderedInsert, hxz, List.filter_cons]
    · have hlt : key x < key z := by
        simpa [keyDesc, not_le] using hxz
      by_cases hx : key x = k
      · have hz : key z ≠ k := by omega
        simp [List.orderedInsert, hxz, ih, hx, hz, List.filter_cons]
      · simp [List.orderedInsert, hxz, ih, hx, List.filter_cons]

/-- Stability of the descending sort: the subsequence of elements carrying any
single key value is returned exactly in input order. -/
lemma filter_key_py_sorted_desc {α : Type} (key : α → Int) (k : Int)
    (l : List α) :
    (py_sorted_desc key l).filter (fun y => key y == k) =
      l.filter (fun y => key y == k) := by
  induction l with
  | nil => rfl
  | cons x xs ih =>
    show (List.orderedInsert (keyDesc key) x (py_sorted_desc key xs)).filter _ = _
    rw [filter_key_orderedInsert, ih]
    by_cases hx : key x = k <;> simp [hx, List.filter_cons]

/-- The stable descending sort is idempotent. -/
lemma py_sorted_desc_idem {α : Type} (key : α → Int) (l : List α) :
    py_sorted_desc key (py_sorted_desc key l) = py_sorted_desc key l :=
  List.Sorted.insertionSort_eq (List.sorted_insertionSort (keyDesc key) l)

/-- A successful association-list lookup exhibits a member of the list. -/
lemma mem_of_lookup_eq_some {α β : Type} [BEq α] [LawfulBEq α] :
    ∀ {l : List (α × β)} {a : α} {b : β}, l.lookup a = some b → (a, b) ∈ l := by
  intro l
  induction l with
  | nil => intro a b h; simp [List.lookup] at h
  | cons p ps ih =>
    intro a b h
    obtain ⟨k', v'⟩ := p
    rw [List.lookup_cons] at h
    cases hab : a == k' with
    | true =>
      rw [hab] at h
      simp only at h
      have ha : a = k' := eq_of_beq hab
      subst ha
      cases h
      exact List.mem_cons_self _ _
    | false =>
      rw [hab] at h
      simp only at h
      exact List.mem_cons_of_mem _ (ih h)

/-- Looking up the just-inserted key of a Python-dict association list yields
the just-inserted value. -/
lemma lookup_dictInsert (k : String) (v : MetricValue)
    (d : List (String × MetricValue)) :
    (dictInsert k v d).lookup k = some v := by
  induction d with
  | nil => simp [dictInsert, List.lookup_cons]
  | cons p rest ih =>
    obtain ⟨k', v'⟩ := p
    rw [dictInsert]
    by_cases h : k' = k
    · rw [if_pos h]
      subst h
      simp [List.lookup_cons]
    · rw [if_neg h]
      rw [List.lookup_cons]
      have hne : (k == k') = false := by
        simp only [beq_eq_false_iff_ne, ne_eq]
        exact fun hk => h hk.symm
      rw [hne]
      exact ih

/-! ### Concrete documents used to exercise the theorems -/

/-- Operator record carrying an input `totalNanos` (999) that disagrees with
the component sum (100 + 900 + 50), to show the analyzers recompute it. -/
def sample_op0 : OperatorProfileRec :=
  { operatorId := some 0, operatorType := some 3, setupNanos := some 100,
    processNanos := some 900, waitNanos := some 50, totalNanos := some 999 }

/-- A table-function operator with heavy wait time, high record volume, low
selectivity and two metric entries sharing `metricId` 7, the later of which
carries both a `longValue` and a `doubleValue`. -/
def sample_op1 : OperatorProfileRec :=
  { operatorId := some 1, operatorType := some 53, setupNanos := some 10,
    processNanos := some 10, waitNanos := some 2000000,
    inputProfile := some [{ records := some 5000000, size := some 1000 }],
    outputRecords := some 10, outputBytes := some 100,
    peakLocalMemoryAllocated := some 2000000,
    metric := some [{ metricId := some 7, longValue := some 1 },
                    { metricId := some 7, longValue := some 42,
                      doubleValue := some (5 / 2) }] }

/-- A small but complete profile document: one fragment, one minor fragment,
two operators, two plan phases. -/
def sample_doc : ProfileDocument :=
  { fragmentProfile := some
      [{ majorFragmentId := some 0,
         minorFragmentProfile := some
           [{ minorFragmentId := some 0,
              operatorProfile := some [sample_op0, sample_op1] }] }],
    planPhases := some
      [{ phaseName := some "Parser", durationMillis := some 50 },
       { phaseName := some "Planning", durationMillis := some 200 }] }

/-- A type-valid document carrying a negative `setupNanos`. -/
def neg_doc : ProfileDocument :=
  { fragmentProfile := some
      [{ minorFragmentProfile := some
           [{ operatorProfile := some [{ setupNanos := some (-1) }] }] }] }

/-! ### Claims -/

/-- C1: for every operator record extracted from any profile document, the
`totalNanos` of the resulting metric equals
`setupNanos + processNanos + waitNanos` (each component the extracted,
0-defaulted value); the input document's own `totalNanos` field is never
consulted. -/
theorem total_nanos_recomputed (profile_data : ProfileDocument) :
    (∀ m ∈ analyze_operators profile_data,
        m.total_nanos = m.setup_nanos + m.process_nanos + m.wait_nanos) ∧
    (∀ m ∈ extract_detailed_metrics profile_data,
        m.total_nanos = m.setup_nanos + m.process_nanos + m.wait_nanos) := by
  constructor <;>
  · intro m hm
    simp only [analyze_operators, extract_detailed_metrics, List.mem_flatMap,
      List.mem_map] at hm
    obtain ⟨fragment, -, minor_fragment, -, op, -, rfl⟩ := hm
    rfl

/-- Witness for C1: in `sample_doc` the first operator record declares
`totalNanos = 999`, yet the extracted metric carries `1050 = 100 + 900 + 50`. -/
theorem total_nanos_recomputed_witness :
    (⟨0, 3, "HashAggregate", 100, 900, 50, 1050, 0, 0⟩ : OperatorTiming) ∈
        analyze_operators sample_doc ∧
    (1050 : Int) = 100 + 900 + 50 := by
  have hm : (⟨0, 3, "HashAggregate", 100, 900, 50, 1050, 0, 0⟩ : OperatorTiming) ∈
      analyze_operators sample_doc := by decide
  exact ⟨hm, (total_nanos_recomputed sample_doc).1 _ hm⟩

/-- C2: the catalog lookup is total over the integers: every code of the
69-entry table (0 through 68) resolves to its table name, and every code
outside the table resolves to the string `Unknown(<code>)` built from the
exact input value. -/
theorem operator_catalog_total (c : Int) :
    (0 ≤ c ∧ c ≤ 68 → (operator_types.lookup c).isSome = true) ∧
    (∀ s, operator_types.lookup c = some s → get_operator_type_name c = s) ∧
    ((c < 0 ∨ 68 < c) →
      get_operator_type_name c = "Unknown(" ++ toString c ++ ")") := by
  refine ⟨?_, ?_, ?_⟩
  · rintro ⟨h0, h68⟩
    have hcover : ∀ n : Nat, n < 69 →
        (operator_types.lookup ((n : Nat) : Int)).isSome = true := by decide
    have hn : c = ((c.toNat : Nat) : Int) := (Int.toNat_of_nonneg h0).symm
    have hlt : c.toNat < 69 := by omega
    rw [hn]
    exact hcover c.toNat hlt
  · intro s hs
    simp [get_operator_type_name, hs]
  · intro h
    cases hl : operator_types.lookup c with
    | none => simp [get_operator_type_name, hl]
    | some s =>
      exfalso
      have hmem := mem_of_lookup_eq_some hl
      have hb : ∀ p ∈ operator_types, 0 ≤ p.1 ∧ p.1 ≤ 68 := by decide
      have h2 : 0 ≤ c ∧ c ≤ 68 := hb _ hmem
      rcases h with h | h <;> omega

/-- Witness for C2: code 3 is in the table and maps to the corrected name
`HashAggregate`; code -1 is outside the table and maps to `Unknown(-1)`. -/
theorem operator_catalog_total_witness :
    (operator_types.lookup 3).isSome = true ∧
    get_operator_type_name 3 = "HashAggregate" ∧
    get_operator_type_name (-1) = "Unknown(-1)" := by
  refine ⟨?_, ?_, ?_⟩
  · exact (operator_catalog_total 3).1 ⟨by decide, by decide⟩
  · exact (operator_catalog_total 3).2.1 "HashAggregate" (by decide)
  · have h := (operator_catalog_total (-1)).2.2 (Or.inl (by decide))
    simpa using h

/-- C3: extraction never fails on structurally incomplete documents: an
absent fragment array yields the empty sequence, and in general the number of
extracted metrics is exactly the number of operator records present, absent
minor-fragment or operator arrays contributing zero. -/
theorem missing_structure_yields_empty (profile_data : ProfileDocument) :
    (profile_data.fragmentProfile = none →
        analyze_operators profile_data = [] ∧
        extract_detailed_metrics profile_data = []) ∧
    (analyze_operators profile_data).length =
      ((profile_data.fragmentProfile.getD []).map fun fragment =>
        ((fragment.minorFragmentProfile.getD []).map fun minor_fragment =>
          (minor_fragment.operatorProfile.getD []).length).sum).sum ∧
    (extract_detailed_metrics profile_data).length =
      ((profile_data.fragmentProfile.getD []).map fun fragment =>
        ((fragment.minorFragmentProfile.getD []).map fun minor_fragment =>
          (minor_fragment.operatorProfile.getD []).length).sum).sum := by
  refine ⟨?_, ?_, ?_⟩
  · intro h
    simp [analyze_operators, extract_detailed_metrics, h]
  · simp [analyze_operators, List.length_flatMap, Function.comp_def]
  · simp [extract_detailed_metrics, List.length_flatMap, Function.comp_def]

/-- Witness for C3: the all-absent document extracts to the empty sequence. -/
theorem missing_structure_yields_empty_witness :
    (ProfileDocument.mk none none).fragmentProfile = none ∧
    analyze_operators (ProfileDocument.mk none none) = [] :=
  ⟨rfl, ((missing_structure_yields_empty (ProfileDocument.mk none none)).1 rfl).1⟩

/-- C4: ranking operators by `totalNanos` and phases by `durationMillis` is a
descending stable sort — the output is sorted under the non-strict descending
order, is a permutation of the input, and elements tied on the sort key keep
their extraction order — and ranking an already-ranked sequence returns it
unchanged. -/
theorem ranking_stable_and_idempotent (operators : List OperatorTiming)
    (phases : List PhaseTiming) :
    List.Sorted (keyDesc fun x => x.total_nanos) (rank_operators operators) ∧
    (rank_operators operators).Perm operators ∧
    (∀ k : Int,
        (rank_operators operators).filter (fun x => x.total_nanos == k) =
          operators.filter (fun x => x.total_nanos == k)) ∧
    rank_operators (rank_operators operators) = rank_operators operators ∧
    List.Sorted (keyDesc fun x => x.duration_millis) (rank_phases phases) ∧
    (rank_phases phases).Perm phases ∧
    (∀ k : Int,
        (rank_phases phases).filter (fun x => x.duration_millis == k) =
          phases.filter (fun x => x.duration_millis == k)) ∧
    rank_phases (rank_phases phases) = rank_phases phases := by
  refine ⟨?_, ?_, ?_, ?_, ?_, ?_, ?_, ?_⟩
  · exact List.sorted_insertionSort _ _
  · exact List.perm_insertionSort _ _
  · intro k
    exact filter_key_py_sorted_desc _ k _
  · exact py_sorted_desc_idem _ _
  · exact List.sorted_insertionSort _ _
  · exact List.perm_insertionSort _ _
  · intro k
    exact filter_key_py_sorted_desc _ k _
  · exact py_sorted_desc_idem _ _

/-- C5: the single longest-running operator (Python `max` by `totalNanos`)
is exactly the head of the stably ranked descending sequence — first-seen
maximal element on ties — and likewise for phases; on an empty sequence both
are absent rather than an error. -/
theorem longest_is_head_of_ranking (operators : List OperatorTiming)
    (phases : List PhaseTiming) :
    longest_operator operators = (rank_operators operators).head? ∧
    longest_phase phases = (rank_phases phases).head? ∧
    longest_operator [] = none ∧
    longest_phase [] = none :=
  ⟨py_max_eq_head?_py_sorted_desc _ operators,
   py_max_eq_head?_py_sorted_desc _ phases, rfl, rfl⟩

/-- The condition of the LowSelectivity rule written as one flat predicate. -/
abbrev low_selectivity_cond (op : DetailedOperatorMetrics) : Prop :=
  1000 < op.input_records ∧ 0 < op.output_records ∧
    (op.output_records : ℚ) / (op.input_records : ℚ) < 1 / 100

/-- Unrolling the accumulation loop of the LowSelectivity rule. -/
lemma poor_selectivity_ops_append (l : List DetailedOperatorMetrics)
    (acc : List (DetailedOperatorMetrics × ℚ)) :
    l.foldl
      (fun acc op =>
        if 1000 < op.input_records ∧ 0 < op.output_records then
          let selectivity := (op.output_records : ℚ) / (op.input_records : ℚ)
          if selectivity < 1 / 100 then acc ++ [(op, selectivity)] else acc
        else acc)
      acc =
    acc ++ l.filterMap (fun op =>
      if low_selectivity_cond op then
        some (op, (op.output_records : ℚ) / (op.input_records : ℚ))
      else none) := by
  induction l generalizing acc with
  | nil => simp
  | cons op rest ih =>
    rw [List.foldl_cons, List.filterMap_cons]
    by_cases h1 : 1000 < op.input_records ∧ 0 < op.output_records
    · by_cases h2 : (op.output_records : ℚ) / (op.input_records : ℚ) < 1 / 100
      · have h3 : low_selectivity_cond op := ⟨h1.1, h1.2, h2⟩
        rw [if_pos h1]
        simp only [if_pos h2, if_pos h3, ih]
        simp
      · have h3 : ¬ low_selectivity_cond op := fun hc => h2 hc.2.2
        rw [if_pos h1]
        simp only [if_neg h2, if_neg h3, ih]
    · have h3 : ¬ low_selectivity_cond op := fun hc => h1 ⟨hc.1, hc.2.1⟩
      rw [if_neg h1, if_neg h3]
      exact ih acc

/-- C6: the LowSelectivity rule flags exactly the operators with
`inputRecords > 1000`, `outputRecords > 0` and selectivity below 1 %,
pairing each with its selectivity, in extraction order; in particular a rule
with no matching operator contributes no entries. -/
theorem low_selectivity_rule (operators : List DetailedOperatorMetrics) :
    poor_selectivity_ops operators =
      operators.filterMap (fun op =>
        if low_selectivity_cond op then
          some (op, (op.output_records : ℚ) / (op.input_records : ℚ))
        else none) := by
  simpa [poor_selectivity_ops] using poor_selectivity_ops_append operators []

/-- A filter operator processing 100 records in 2 seconds. -/
def demo_op : DetailedOperatorMetrics :=
  ⟨9, 2, "Filter", 0, 2000000000, 0, 2000000000, 0, 0, 100, 50, 0, 0, 0, []⟩

/-- C7: throughput is `inputRecords / (processNanos / 1e9)` (equivalently
`inputRecords * 1e9 / processNanos`) whenever `processNanos > 0`, and 0 when
`processNanos = 0` — never a division error, never a non-finite value — and
the breakdown site computes the same quantity whenever it computes one. -/
theorem throughput_defined_or_zero (op : DetailedOperatorMetrics) :
    (0 < op.process_nanos →
        throughput op =
          (op.input_records : ℚ) / ((op.process_nanos : ℚ) / 1000000000) ∧
        throughput op =
          (op.input_records : ℚ) * 1000000000 / (op.process_nanos : ℚ)) ∧
    (op.process_nanos = 0 → throughput op = 0) ∧
    (0 < op.input_records → 0 < op.process_nanos →
        processing_rate op = some (throughput op)) := by
  refine ⟨?_, ?_, ?_⟩
  · intro hp
    refine ⟨by simp [throughput, hp], ?_⟩
    simp [throughput, hp, div_div_eq_mul_div]
  · intro hp
    simp [throughput, hp]
  · intro hi hp
    simp [processing_rate, throughput, hi, hp]

/-- Witness for C7: 100 records over 2 seconds of process time give
throughput 50 records per second. -/
theorem throughput_defined_or_zero_witness :
    (0 : Int) < 2000000000 ∧ throughput demo_op = 50 := by
  have h := ((throughput_defined_or_zero demo_op).1 (by decide)).1
  refine ⟨by decide, ?_⟩
  rw [h]
  norm_num [demo_op]

/-- C8: the detailed analysis is a pure function of the profile document —
rerunning it on the same document yields the identical report, and the whole
report (ranking, rule outputs, statistics) is determined by the extracted
metric sequence alone, with no other state. -/
theorem analysis_deterministic :
    (∀ profile_data : ProfileDocument,
        run_detailed_analysis profile_data = run_detailed_analysis profile_data) ∧
    (∀ d₁ d₂ : ProfileDocument,
        extract_detailed_metrics d₁ = extract_detailed_metrics d₂ →
        run_detailed_analysis d₁ = run_detailed_analysis d₂) := by
  refine ⟨fun _ => rfl, fun d₁ d₂ h => ?_⟩
  unfold run_detailed_analysis
  rw [h]

/-- Witness for C8: rerunning the analysis on `sample_doc` reproduces the
report. -/
theorem analysis_deterministic_witness :
    extract_detailed_metrics sample_doc = extract_detailed_metrics sample_doc ∧
    run_detailed_analysis sample_doc = run_detailed_analysis sample_doc :=
  ⟨rfl, analysis_deterministic.2 sample_doc sample_doc rfl⟩

/-- All numeric fields of one input-profile entry are non-negative (after the
0-defaulting the extractor applies). -/
abbrev input_profile_nonneg (ip : InputProfileRec) : Prop :=
  0 ≤ ip.records.getD 0 ∧ 0 ≤ ip.size.getD 0

/-- All numeric inputs the extractor reads from one operator record are
non-negative. -/
abbrev operator_rec_nonneg (op : OperatorProfileRec) : Prop :=
  0 ≤ op.setupNanos.getD 0 ∧ 0 ≤ op.processNanos.getD 0 ∧
  0 ≤ op.waitNanos.getD 0 ∧ 0 ≤ op.outputRecords.getD 0 ∧
  0 ≤ op.outputBytes.getD 0 ∧ 0 ≤ op.peakLocalMemoryAllocated.getD 0 ∧
  ∀ ip ∈ op.inputProfile.getD [], input_profile_nonneg ip

/-- All numeric values carried by a profile document are non-negative. -/
abbrev document_nonneg (d : ProfileDocument) : Prop :=
  (∀ fragment ∈ d.fragmentProfile.getD [],
      ∀ minor_fragment ∈ fragment.minorFragmentProfile.getD [],
        ∀ op ∈ minor_fragment.operatorProfile.getD [],
          operator_rec_nonneg op) ∧
  ∀ phase ∈ d.planPhases.getD [], 0 ≤ phase.durationMillis.getD 0

/-- Counterexample for C9: the extractor accepts a document whose
`setupNanos` is -1 and passes the negative value straight into the extracted
metric, so non-negativity does not hold for every accepted document. -/
theorem extracted_fields_nonneg_counterexample :
    ¬ (∀ m ∈ extract_detailed_metrics neg_doc, 0 ≤ m.setup_nanos) := by
  decide

/-- C9 (amended): provided every numeric field of the document is
non-negative, every numeric field of every extracted operator metric and
phase metric is non-negative. -/
theorem extracted_fields_nonneg (profile_data : ProfileDocument)
    (h : document_nonneg profile_data) :
    (∀ m ∈ extract_detailed_metrics profile_data,
        0 ≤ m.setup_nanos ∧ 0 ≤ m.process_nanos ∧ 0 ≤ m.wait_nanos ∧
        0 ≤ m.total_nanos ∧ 0 ≤ m.input_records ∧ 0 ≤ m.output_records ∧
        0 ≤ m.input_bytes ∧ 0 ≤ m.output_bytes ∧ 0 ≤ m.peak_memory) ∧
    (∀ p ∈ analyze_phases profile_data, 0 ≤ p.duration_millis) := by
  constructor
  · intro m hm
    simp only [extract_detailed_metrics, List.mem_flatMap, List.mem_map] at hm
    obtain ⟨fragment, hf, minor_fragment, hmf, op, hop, rfl⟩ := hm
    obtain ⟨h1, h2, h3, h4, h5, h6, h7⟩ := h.1 fragment hf minor_fragment hmf op hop
    refine ⟨h1, h2, h3, ?_, ?_, h4, ?_, h5, h6⟩
    · show 0 ≤ op.setupNanos.getD 0 + op.processNanos.getD 0 + op.waitNanos.getD 0
      omega
    · show 0 ≤ ((op.inputProfile.getD []).map fun ip => ip.records.getD 0).sum
      refine List.sum_nonneg ?_
      intro x hx
      simp only [List.mem_map] at hx
      obtain ⟨ip, hip, rfl⟩ := hx
      exact (h7 ip hip).1
    · show 0 ≤ ((op.inputProfile.getD []).map fun ip => ip.size.getD 0).sum
      refine List.sum_nonneg ?_
      intro x hx
      simp only [List.mem_map] at hx
      obtain ⟨ip, hip, rfl⟩ := hx
      exact (h7 ip hip).2
  · intro p hp
    simp only [analyze_phases, List.mem_map] at hp
    obtain ⟨phase, hph, rfl⟩ := hp
    exact h.2 phase hph

/-- The detailed metric extracted from `sample_op0`. -/
def sample_detailed0 : DetailedOperatorMetrics :=
  ⟨0, 3, "HashAggregate", 100, 900, 50, 1050, 0, 0, 0, 0, 0, 0, 0, []⟩

/-- Witness for C9 (amended): `sample_doc` has only non-negative values and
its first extracted metric has only non-negative fields. -/
theorem extracted_fields_nonneg_witness :
    document_nonneg sample_doc ∧
    (0 ≤ (100 : Int) ∧ 0 ≤ (900 : Int) ∧ 0 ≤ (50 : Int) ∧ 0 ≤ (1050 : Int) ∧
     0 ≤ (0 : Int) ∧ 0 ≤ (0 : Int) ∧ 0 ≤ (0 : Int) ∧ 0 ≤ (0 : Int) ∧
     0 ≤ (0 : Int)) := by
  have hd : document_nonneg sample_doc := by decide
  have hm : sample_detailed0 ∈ extract_detailed_metrics sample_doc := by decide
  exact ⟨hd, (extracted_fields_nonneg sample_doc hd).1 sample_detailed0 hm⟩

/-- C10: a metric entry carrying both a `longValue` and a `doubleValue` is
stored as its `longValue`; and whatever earlier entries wrote under the same
`metricId`, the last entry's value is the one left in the metrics dict. -/
theorem metric_entry_storage :
    (∀ (earlier : List MetricEntry) (e : MetricEntry) (a : Int),
        e.longValue = some a →
        (build_metrics (earlier ++ [e])).lookup
            ("metric_" ++ toString (e.metricId.getD 0)) =
          some (MetricValue.longVal a)) ∧
    (∀ (earlier : List MetricEntry) (e : MetricEntry) (b : ℚ),
        e.longValue = none → e.doubleValue = some b →
        (build_metrics (earlier ++ [e])).lookup
            ("metric_" ++ toString (e.metricId.getD 0)) =
          some (MetricValue.doubleVal b)) := by
  constructor
  · intro earlier e a ha
    simp only [build_metrics, List.foldl_append, List.foldl_cons,
      List.foldl_nil, ha]
    exact lookup_dictInsert _ _ _
  · intro earlier e b ha hb
    simp only [build_metrics, List.foldl_append, List.foldl_cons,
      List.foldl_nil, ha, hb]
    exact lookup_dictInsert _ _ _

/-- Witness for C10: with an earlier entry for `metricId` 7 and a later one
carrying `longValue` 42 and `doubleValue` 5/2, the dict maps `metric_7` to
the long value 42. -/
theorem metric_entry_storage_witness :
    (MetricEntry.mk (some 7) (some 42) (some (5 / 2))).longValue = some 42 ∧
    (build_metrics [MetricEntry.mk (some 7) (some 1) none,
                    MetricEntry.mk (some 7) (some 42) (some (5 / 2))]).lookup
        "metric_7" = some (MetricValue.longVal 42) := by
  have h := metric_entry_storage.1 [MetricEntry.mk (some 7) (some 1) none]
      (MetricEntry.mk (some 7) (some 42) (some (5 / 2))) 42 rfl
  exact ⟨rfl, h⟩

end ProfileAnalyzer
